import Mathlib

/-!
# Verification of the DatabaseBackup migration core

Shallow embedding of the migration core of the DatabaseBackup repository:

* `app/db_adapters/base.py`, `sqlite_adapter.py`, `mysql_adapter.py`,
  `postgresql_adapter.py` — the per-engine adapters;
* `app/db_adapters/type_mapping.py` — the type mapper / DDL rewriter;
* `app/db_migration.py` — the migration orchestrator.

Python exceptions are modelled with `Except PyExc`; a `try/except` block is
modelled with `pyTry`.  A database connection handle (`self.connection`) is
modelled as `Option PyConn`, where `PyConn`/`PyCursor` carry oracle functions
describing whatever the underlying driver would answer; the disconnected state
is `none`, and — as in Python — any attribute access on `None` raises an
`AttributeError`.  Rows are modelled as opaque tuples (`List String`); none of
the verified properties depend on the scalar values inside a row.
-/

/-- A Python exception, as far as the migration core can observe one. -/
inductive PyExc where
  | attributeError (msg : String)
  | nameError (msg : String)
  | otherError (msg : String)
  deriving DecidableEq

/-- A fetched row: a fixed-arity tuple of scalars, kept opaque here. -/
abbrev Row := List String

/-- Oracle model of a DB-API cursor: each field records what the driver would
answer to the corresponding call.  `execute`/`executemany` may raise (e.g. a
constraint violation), `fetchall` returns the pending result set. -/
structure PyCursor where
  execute : String → Except PyExc Unit
  executemany : String → List Row → Except PyExc Unit
  fetchall : Except PyExc (List Row)
  fetchone : Except PyExc (Option Row)

/-- Oracle model of a live DB-API connection. -/
structure PyConn where
  cursor : Except PyExc PyCursor
  commit : Except PyExc Unit
  rollback : Except PyExc Unit

/-- Python `try: body except Exception: handler`. -/
def pyTry {α : Type} (body : Except PyExc α) (handler : PyExc → Except PyExc α) :
    Except PyExc α :=
  match body with
  | .ok a => .ok a
  | .error e => handler e

/-- `self.connection.cursor()`: on a `None` connection the attribute access
itself raises `AttributeError`. -/
def connCursor (conn : Option PyConn) : Except PyExc PyCursor :=
  match conn with
  | none => .error (.attributeError "NoneType object has no attribute cursor")
  | some c => c.cursor

/-- `self.connection.commit()` (raises `AttributeError` on `None`). -/
def connCommit (conn : Option PyConn) : Except PyExc Unit :=
  match conn with
  | none => .error (.attributeError "NoneType object has no attribute commit")
  | some c => c.commit

/-- `self.connection.rollback()` (raises `AttributeError` on `None`). -/
def connRollback (conn : Option PyConn) : Except PyExc Unit :=
  match conn with
  | none => .error (.attributeError "NoneType object has no attribute rollback")
  | some c => c.rollback

/-! ## SQLite adapter (`app/db_adapters/sqlite_adapter.py`)

Each method takes the adapter's connection state (`self.connection`) as an
explicit `Option PyConn` argument. -/

/-- `SQLiteAdapter.get_table_list` (lines 69–78). -/
def SQLiteAdapter.get_table_list (conn : Option PyConn) : Except PyExc (List Row) :=
  pyTry (do
    let cursor ← connCursor conn
    cursor.execute "SELECT name FROM sqlite_master WHERE type=table ORDER BY name"
    cursor.fetchall)
    (fun _ => .ok [])

/-- `SQLiteAdapter.get_table_structure` (lines 80–89). -/
def SQLiteAdapter.get_table_structure (conn : Option PyConn) (table_name : String) :
    Except PyExc String :=
  pyTry (do
    let cursor ← connCursor conn
    cursor.execute ("SELECT sql FROM sqlite_master WHERE type=table AND name=" ++ table_name)
    let result ← cursor.fetchone
    match result with
    | some row => .ok (row.headD "")
    | none => .ok "")
    (fun _ => .ok "")

/-- `SQLiteAdapter.get_table_columns` (lines 91–112); the per-row dictionary
construction is irrelevant to the verified claims, so the raw rows are
returned. -/
def SQLiteAdapter.get_table_columns (conn : Option PyConn) (table_name : String) :
    Except PyExc (List Row) :=
  pyTry (do
    let cursor ← connCursor conn
    cursor.execute ("PRAGMA table_info(`" ++ table_name ++ "`)")
    cursor.fetchall)
    (fun _ => .ok [])

/-- `SQLiteAdapter.get_table_data` (lines 114–122). -/
def SQLiteAdapter.get_table_data (conn : Option PyConn) (table_name : String) :
    Except PyExc (List Row) :=
  pyTry (do
    let cursor ← connCursor conn
    cursor.execute ("SELECT * FROM `" ++ table_name ++ "`")
    cursor.fetchall)
    (fun _ => .ok [])

/-- `SQLiteAdapter.drop_table` (lines 124–135).  Note that the `except` block
itself performs `self.connection.rollback()` before returning `False`. -/
def SQLiteAdapter.drop_table (conn : Option PyConn) (table_name : String) :
    Except PyExc Bool :=
  pyTry (do
    let cursor ← connCursor conn
    cursor.execute ("DROP TABLE IF EXISTS `" ++ table_name ++ "`")
    _ ← connCommit conn
    .ok true)
    (fun _ => do
      _ ← connRollback conn
      .ok false)

/-- `SQLiteAdapter.create_table` (lines 137–148). -/
def SQLiteAdapter.create_table (conn : Option PyConn) (create_sql : String) :
    Except PyExc Bool :=
  pyTry (do
    let cursor ← connCursor conn
    cursor.execute create_sql
    _ ← connCommit conn
    .ok true)
    (fun _ => do
      _ ← connRollback conn
      .ok false)

/-- `SQLiteAdapter.insert_data` (lines 150–171): empty data short-circuits to
`True` before the `try` block. -/
def SQLiteAdapter.insert_data (conn : Option PyConn) (table_name : String)
    (columns : List String) (data : List Row) : Except PyExc Bool :=
  if data.isEmpty then .ok true
  else
    pyTry (do
      let cursor ← connCursor conn
      let placeholders := String.intercalate ", " (columns.map (fun _ => "?"))
      let columns_str := String.intercalate ", " (columns.map (fun col => "`" ++ col ++ "`"))
      cursor.executemany
        ("INSERT INTO `" ++ table_name ++ "` (" ++ columns_str ++ ") VALUES (" ++ placeholders ++ ")")
        data
      _ ← connCommit conn
      .ok true)
      (fun _ => do
        _ ← connRollback conn
        .ok false)

/-- `SQLiteAdapter.execute_sql` (lines 173–182). -/
def SQLiteAdapter.execute_sql (conn : Option PyConn) (sql : String) :
    Except PyExc (Bool × String) :=
  pyTry (do
    let cursor ← connCursor conn
    cursor.execute sql
    _ ← connCommit conn
    .ok (true, "SQL执行成功"))
    (fun e => do
      _ ← connRollback conn
      .ok (false, "SQL执行失败: " ++ (match e with
        | .attributeError m => m | .nameError m => m | .otherError m => m)))

/-! ## MySQL adapter (`app/db_adapters/mysql_adapter.py`)

The `with self.connection.cursor() as cursor:` blocks raise the same
`AttributeError` on a `None` connection when `.cursor` is accessed. -/

/-- `MySQLAdapter.get_table_list` (lines 74–83). -/
def MySQLAdapter.get_table_list (conn : Option PyConn) : Except PyExc (List Row) :=
  pyTry (do
    let cursor ← connCursor conn
    cursor.execute "SHOW TABLES"
    cursor.fetchall)
    (fun _ => .ok [])

/-- `MySQLAdapter.get_table_structure` (lines 85–94). -/
def MySQLAdapter.get_table_structure (conn : Option PyConn) (table_name : String) :
    Except PyExc String :=
  pyTry (do
    let cursor ← connCursor conn
    cursor.execute ("SHOW CREATE TABLE `" ++ table_name ++ "`")
    let result ← cursor.fetchone
    match result with
    | some row => .ok ((row.drop 1).headD "")
    | none => .ok "")
    (fun _ => .ok "")

/-- `MySQLAdapter.get_table_columns` (lines 96–117). -/
def MySQLAdapter.get_table_columns (conn : Option PyConn) (table_name : String) :
    Except PyExc (List Row) :=
  pyTry (do
    let cursor ← connCursor conn
    cursor.execute ("DESCRIBE `" ++ table_name ++ "`")
    cursor.fetchall)
    (fun _ => .ok [])

/-- `MySQLAdapter.get_table_data` (lines 119–127). -/
def MySQLAdapter.get_table_data (conn : Option PyConn) (table_name : String) :
    Except PyExc (List Row) :=
  pyTry (do
    let cursor ← connCursor conn
    cursor.execute ("SELECT * FROM `" ++ table_name ++ "`")
    cursor.fetchall)
    (fun _ => .ok [])

/-- `MySQLAdapter.drop_table` (lines 129–140). -/
def MySQLAdapter.drop_table (conn : Option PyConn) (table_name : String) :
    Except PyExc Bool :=
  pyTry (do
    let cursor ← connCursor conn
    cursor.execute ("DROP TABLE IF EXISTS `" ++ table_name ++ "`")
    _ ← connCommit conn
    .ok true)
    (fun _ => do
      _ ← connRollback conn
      .ok false)

/-- `MySQLAdapter.create_table` (lines 142–153). -/
def MySQLAdapter.create_table (conn : Option PyConn) (create_sql : String) :
    Except PyExc Bool :=
  pyTry (do
    let cursor ← connCursor conn
    cursor.execute create_sql
    _ ← connCommit conn
    .ok true)
    (fun _ => do
      _ ← connRollback conn
      .ok false)

/-- `MySQLAdapter.insert_data` (lines 155–175): empty data short-circuits to
`True` before the `try` block. -/
def MySQLAdapter.insert_data (conn : Option PyConn) (table_name : String)
    (columns : List String) (data : List Row) : Except PyExc Bool :=
  if data.isEmpty then .ok true
  else
    pyTry (do
      let cursor ← connCursor conn
      let placeholders := String.intercalate ", " (columns.map (fun _ => "%s"))
      let columns_str := String.intercalate ", " (columns.map (fun col => "`" ++ col ++ "`"))
      cursor.executemany
        ("INSERT INTO `" ++ table_name ++ "` (" ++ columns_str ++ ") VALUES (" ++ placeholders ++ ")")
        data
      _ ← connCommit conn
      .ok true)
      (fun _ => do
        _ ← connRollback conn
        .ok false)

/-- `MySQLAdapter.execute_sql` (lines 177–186). -/
def MySQLAdapter.execute_sql (conn : Option PyConn) (sql : String) :
    Except PyExc (Bool × String) :=
  pyTry (do
    let cursor ← connCursor conn
    cursor.execute sql
    _ ← connCommit conn
    .ok (true, "SQL执行成功"))
    (fun e => do
      _ ← connRollback conn
      .ok (false, "SQL执行失败: " ++ (match e with
        | .attributeError m => m | .nameError m => m | .otherError m => m)))

/-! ## PostgreSQL adapter (`app/db_adapters/postgresql_adapter.py`) -/

/-- `PostgreSQLAdapter.get_table_list` (lines 75–91). -/
def PostgreSQLAdapter.get_table_list (conn : Option PyConn) : Except PyExc (List Row) :=
  pyTry (do
    let cursor ← connCursor conn
    cursor.execute "SELECT tablename FROM pg_tables WHERE schemaname = public ORDER BY tablename"
    cursor.fetchall)
    (fun _ => .ok [])

/-- `PostgreSQLAdapter.get_table_columns` (lines 131–170). -/
def PostgreSQLAdapter.get_table_columns (conn : Option PyConn) (table_name : String) :
    Except PyExc (List Row) :=
  pyTry (do
    let cursor ← connCursor conn
    cursor.execute ("SELECT ... FROM pg_attribute WHERE attrelid = " ++ table_name ++ "::regclass")
    cursor.fetchall)
    (fun _ => .ok [])

/-- `PostgreSQLAdapter.get_table_structure` (lines 93–129): synthesized from
`get_table_columns`; with no columns it returns the empty string.  The
column-by-column DDL assembly operates on the opaque rows and is abstracted by
`assembleDDL`. -/
def PostgreSQLAdapter.get_table_structure (assembleDDL : String → List Row → String)
    (conn : Option PyConn) (table_name : String) : Except PyExc String :=
  pyTry (do
    let columns ← PostgreSQLAdapter.get_table_columns conn table_name
    if columns.isEmpty then .ok ""
    else .ok (assembleDDL table_name columns))
    (fun _ => .ok "")

/-- `PostgreSQLAdapter.get_table_data` (lines 172–182). -/
def PostgreSQLAdapter.get_table_data (conn : Option PyConn) (table_name : String) :
    Except PyExc (List Row) :=
  pyTry (do
    let cursor ← connCursor conn
    cursor.execute ("SELECT * FROM \"" ++ table_name ++ "\"")
    cursor.fetchall)
    (fun _ => .ok [])

/-- `PostgreSQLAdapter.drop_table` (lines 184–196). -/
def PostgreSQLAdapter.drop_table (conn : Option PyConn) (table_name : String) :
    Except PyExc Bool :=
  pyTry (do
    let cursor ← connCursor conn
    cursor.execute ("DROP TABLE IF EXISTS \"" ++ table_name ++ "\"")
    _ ← connCommit conn
    .ok true)
    (fun _ => do
      _ ← connRollback conn
      .ok false)

/-- `PostgreSQLAdapter.create_table` (lines 198–210). -/
def PostgreSQLAdapter.create_table (conn : Option PyConn) (create_sql : String) :
    Except PyExc Bool :=
  pyTry (do
    let cursor ← connCursor conn
    cursor.execute create_sql
    _ ← connCommit conn
    .ok true)
    (fun _ => do
      _ ← connRollback conn
      .ok false)

/-- `PostgreSQLAdapter.insert_data` (lines 212–234): empty data short-circuits
to `True` before the `try` block. -/
def PostgreSQLAdapter.insert_data (conn : Option PyConn) (table_name : String)
    (columns : List String) (data : List Row) : Except PyExc Bool :=
  if data.isEmpty then .ok true
  else
    pyTry (do
      let cursor ← connCursor conn
      let columns_str := String.intercalate ", " (columns.map (fun col => "\"" ++ col ++ "\""))
      let placeholders := String.intercalate ", " (columns.map (fun _ => "%s"))
      cursor.executemany
        ("INSERT INTO \"" ++ table_name ++ "\" (" ++ columns_str ++ ") VALUES (" ++ placeholders ++ ")")
        data
      _ ← connCommit conn
      .ok true)
      (fun _ => do
        _ ← connRollback conn
        .ok false)

/-- `PostgreSQLAdapter.execute_sql` (lines 236–246). -/
def PostgreSQLAdapter.execute_sql (conn : Option PyConn) (sql : String) :
    Except PyExc (Bool × String) :=
  pyTry (do
    let cursor ← connCursor conn
    cursor.execute sql
    _ ← connCommit conn
    .ok (true, "SQL执行成功"))
    (fun e => do
      _ ← connRollback conn
      .ok (false, "SQL执行失败: " ++ (match e with
        | .attributeError m => m | .nameError m => m | .otherError m => m)))

/-! ## Python string primitives

The Python string methods used by the migration core, re-expressed over the
character list underlying a `String` so that they evaluate by kernel
reduction.  The repository only ever feeds them ASCII SQL text, so the ASCII
readings of `str.upper`/`str.strip` (which in Python also handle non-ASCII
case folding / whitespace) are faithful on every input that matters. -/

/-- Python whitespace as stripped by `str.strip()` (ASCII part). -/
def pyIsSpace (c : Char) : Bool :=
  c == ' ' || c == '\t' || c == '\n' || c == '\r' || c == '\x0b' || c == '\x0c'

/-- `str.upper()` (ASCII). -/
def pyUpper (s : String) : String :=
  String.mk (s.toList.map Char.toUpper)

/-- `str.strip()` (ASCII whitespace). -/
def pyStrip (s : String) : String :=
  String.mk (((s.toList.dropWhile pyIsSpace).reverse.dropWhile pyIsSpace).reverse)

/-- `str.startswith(pre)`. -/
def pyStartsWith (s pre : String) : Bool :=
  pre.toList.isPrefixOf s.toList

/-- `str.endswith(suf)`. -/
def pyEndsWith (s suf : String) : Bool :=
  suf.toList.isSuffixOf s.toList

/-- `c in s` for a single character. -/
def pyContainsChar (s : String) (c : Char) : Bool :=
  s.toList.contains c

/-! ## Type mapper (`app/db_adapters/type_mapping.py`)

`DataTypeMapper` is a pure component.  The static class attributes
`MYSQL_TO_SQLITE`, …, `POSTGRESQL_TO_SQLITE` are embedded as association
lists in their source order; `getattr(cls, f"{SRC}_TO_{DST}", {})` is embedded
by `mappingFor`, which returns the empty table for any unknown pair. -/

/-- `DataTypeMapper.MYSQL_TO_SQLITE` (lines 18–64). -/
def DataTypeMapper.MYSQL_TO_SQLITE : List (String × String) :=
  [("TINYINT", "INTEGER"), ("SMALLINT", "INTEGER"), ("MEDIUMINT", "INTEGER"),
   ("INT", "INTEGER"), ("INTEGER", "INTEGER"), ("BIGINT", "INTEGER"),
   ("FLOAT", "REAL"), ("DOUBLE", "REAL"), ("DECIMAL", "REAL"), ("NUMERIC", "REAL"),
   ("CHAR", "TEXT"), ("VARCHAR", "TEXT"), ("TINYTEXT", "TEXT"), ("TEXT", "TEXT"),
   ("MEDIUMTEXT", "TEXT"), ("LONGTEXT", "TEXT"),
   ("TINYBLOB", "BLOB"), ("BLOB", "BLOB"), ("MEDIUMBLOB", "BLOB"),
   ("LONGBLOB", "BLOB"), ("BINARY", "BLOB"), ("VARBINARY", "BLOB"),
   ("DATE", "TEXT"), ("TIME", "TEXT"), ("DATETIME", "TEXT"), ("TIMESTAMP", "TEXT"),
   ("YEAR", "INTEGER"),
   ("BOOL", "INTEGER"), ("BOOLEAN", "INTEGER"),
   ("ENUM", "TEXT"), ("SET", "TEXT"), ("JSON", "TEXT")]

/-- `DataTypeMapper.MYSQL_TO_POSTGRESQL` (lines 66–112). -/
def DataTypeMapper.MYSQL_TO_POSTGRESQL : List (String × String) :=
  [("TINYINT", "SMALLINT"), ("SMALLINT", "SMALLINT"), ("MEDIUMINT", "INTEGER"),
   ("INT", "INTEGER"), ("INTEGER", "INTEGER"), ("BIGINT", "BIGINT"),
   ("FLOAT", "REAL"), ("DOUBLE", "DOUBLE PRECISION"), ("DECIMAL", "NUMERIC"),
   ("NUMERIC", "NUMERIC"),
   ("CHAR", "CHARACTER"), ("VARCHAR", "VARCHAR"), ("TINYTEXT", "TEXT"),
   ("TEXT", "TEXT"), ("MEDIUMTEXT", "TEXT"), ("LONGTEXT", "TEXT"),
   ("TINYBLOB", "BYTEA"), ("BLOB", "BYTEA"), ("MEDIUMBLOB", "BYTEA"),
   ("LONGBLOB", "BYTEA"), ("BINARY", "BYTEA"), ("VARBINARY", "BYTEA"),
   ("DATE", "DATE"), ("TIME", "TIME"), ("DATETIME", "TIMESTAMP"),
   ("TIMESTAMP", "TIMESTAMP"), ("YEAR", "INTEGER"),
   ("BOOL", "BOOLEAN"), ("BOOLEAN", "BOOLEAN"),
   ("ENUM", "VARCHAR"), ("SET", "TEXT"), ("JSON", "JSONB")]

/-- `DataTypeMapper.SQLITE_TO_MYSQL` (lines 115–121). -/
def DataTypeMapper.SQLITE_TO_MYSQL : List (String × String) :=
  [("INTEGER", "INT"), ("REAL", "DOUBLE"), ("TEXT", "TEXT"), ("BLOB", "BLOB"),
   ("NUMERIC", "DECIMAL")]

/-- `DataTypeMapper.SQLITE_TO_POSTGRESQL` (lines 123–129). -/
def DataTypeMapper.SQLITE_TO_POSTGRESQL : List (String × String) :=
  [("INTEGER", "INTEGER"), ("REAL", "DOUBLE PRECISION"), ("TEXT", "TEXT"),
   ("BLOB", "BYTEA"), ("NUMERIC", "NUMERIC")]

/-- `DataTypeMapper.POSTGRESQL_TO_MYSQL` (lines 132–150). -/
def DataTypeMapper.POSTGRESQL_TO_MYSQL : List (String × String) :=
  [("SMALLINT", "SMALLINT"), ("INTEGER", "INT"), ("BIGINT", "BIGINT"),
   ("DECIMAL", "DECIMAL"), ("NUMERIC", "DECIMAL"), ("REAL", "DOUBLE"),
   ("DOUBLE PRECISION", "DOUBLE"), ("CHARACTER", "CHAR"), ("VARCHAR", "VARCHAR"),
   ("TEXT", "TEXT"), ("BYTEA", "BLOB"), ("DATE", "DATE"), ("TIME", "TIME"),
   ("TIMESTAMP", "DATETIME"), ("BOOLEAN", "TINYINT"), ("JSONB", "JSON"),
   ("JSON", "JSON")]

/-- `DataTypeMapper.POSTGRESQL_TO_SQLITE` (lines 152–170). -/
def DataTypeMapper.POSTGRESQL_TO_SQLITE : List (String × String) :=
  [("SMALLINT", "INTEGER"), ("INTEGER", "INTEGER"), ("BIGINT", "INTEGER"),
   ("DECIMAL", "REAL"), ("NUMERIC", "REAL"), ("REAL", "REAL"),
   ("DOUBLE PRECISION", "REAL"), ("CHARACTER", "TEXT"), ("VARCHAR", "TEXT"),
   ("TEXT", "TEXT"), ("BYTEA", "BLOB"), ("DATE", "TEXT"), ("TIME", "TEXT"),
   ("TIMESTAMP", "TEXT"), ("BOOLEAN", "INTEGER"), ("JSONB", "TEXT"),
   ("JSON", "TEXT")]

/-- `getattr(cls, f"{source_db.upper()}_TO_{target_db.upper()}", {})`
(`map_type`, lines 193–196): resolves the mapping table by name, defaulting to
the empty mapping for any pair without a table. -/
def DataTypeMapper.mappingFor (source_db target_db : String) : List (String × String) :=
  let mapping_name := pyUpper source_db ++ "_TO_" ++ pyUpper target_db
  if mapping_name = "MYSQL_TO_SQLITE" then DataTypeMapper.MYSQL_TO_SQLITE
  else if mapping_name = "MYSQL_TO_POSTGRESQL" then DataTypeMapper.MYSQL_TO_POSTGRESQL
  else if mapping_name = "SQLITE_TO_MYSQL" then DataTypeMapper.SQLITE_TO_MYSQL
  else if mapping_name = "SQLITE_TO_POSTGRESQL" then DataTypeMapper.SQLITE_TO_POSTGRESQL
  else if mapping_name = "POSTGRESQL_TO_MYSQL" then DataTypeMapper.POSTGRESQL_TO_MYSQL
  else if mapping_name = "POSTGRESQL_TO_SQLITE" then DataTypeMapper.POSTGRESQL_TO_SQLITE
  else []

/-- The no-length type list of `map_type` line 210.  Note that it contains
`DATETIME` in the source, in addition to the types the spec enumerates. -/
def DataTypeMapper.no_length_types : List String :=
  ["TEXT", "BLOB", "BYTEA", "DATE", "TIME", "DATETIME", "TIMESTAMP", "BOOLEAN",
   "JSON", "JSONB"]

/-- `source_type.upper().split('(')[0].strip()` (`map_type` line 186):
uppercase, keep the text before the first `(`, strip whitespace. -/
def DataTypeMapper.baseTypeOf (source_type : String) : String :=
  pyStrip (String.mk ((pyUpper source_type).toList.takeWhile (fun c => c != '(')))

/-- `source_type[source_type.index('('):]` (`map_type` line 208): the
length/precision suffix starting at the first opening parenthesis. -/
def DataTypeMapper.lengthPartOf (source_type : String) : String :=
  String.mk (source_type.toList.dropWhile (fun c => c != '('))

/-- `DataTypeMapper.map_type` (lines 172–213). -/
def DataTypeMapper.map_type (source_type source_db target_db : String) : String :=
  let base_type := DataTypeMapper.baseTypeOf source_type
  if source_db = target_db then source_type
  else
    let mapping := DataTypeMapper.mappingFor source_db target_db
    match mapping.lookup base_type with
    | none => source_type
    | some target_type =>
      if pyContainsChar source_type '(' then
        if !(DataTypeMapper.no_length_types.contains target_type) then
          target_type ++ DataTypeMapper.lengthPartOf source_type
        else target_type
      else target_type

/-! ## `convert_create_table_sql` (lines 215–259)

The type-rewriting pass is `re.sub(r'\b([A-Z]+)(?:\([^)]*\))?', replace_type,
create_sql, flags=re.IGNORECASE)`.  With `IGNORECASE`, `[A-Z]+` matches a
maximal run of ASCII letters, `\b` requires the preceding character to be a
non-word character (or the start of the string), and the optional group
consumes a parenthesized modifier up to the first `)` if one is present.
Because `\s`/letters/`=`/`\w` never overlap in these patterns, Python's
leftmost-greedy matching is deterministic and is implemented below as a
single left-to-right scan over the character list, exactly as `re.sub`
performs it (unmatched characters are copied, each match is replaced by the
callback's result, and scanning resumes after the match). -/

/-- `[A-Za-z]` — `[A-Z]` under `re.IGNORECASE`. -/
def pyIsAsciiLetter (c : Char) : Bool :=
  ('A' ≤ c && c ≤ 'Z') || ('a' ≤ c && c ≤ 'z')

/-- `\w` (ASCII): letters, digits and underscore. -/
def pyIsWordChar (c : Char) : Bool :=
  pyIsAsciiLetter c || c.isDigit || c == '_'

/-- Whether the character preceding the current scan position is a word
character (`none` = start of string, which is a word boundary). -/
def pyIsWordCharOpt : Option Char → Bool
  | none => false
  | some c => pyIsWordChar c

/-- `\([^)]*\)`: given the characters after an opening `(`, return the
modifier body and the remainder after the first `)`, or `none` when the
group cannot match because no `)` follows. -/
def spanCloseParen : List Char → Option (List Char × List Char)
  | [] => none
  | c :: rest =>
    if c == ')' then some ([], rest)
    else
      match spanCloseParen rest with
      | none => none
      | some (inner, after) => some (c :: inner, after)

/-- The `replace_type` callback (lines 244–252): `match.group(0)` is the whole
token (letters plus optional parenthesized modifier), `match.group(1)` the
letters; the result is `map_type(group0)` except that a parenthesized token
whose mapping equals its bare base is returned verbatim. -/
def DataTypeMapper.replace_type (source_db target_db : String)
    (letters : List Char) (modifier : Option (List Char)) : List Char :=
  let group0 : String := match modifier with
    | some inner => String.mk (letters ++ '(' :: (inner ++ [')']))
    | none => String.mk letters
  let group1 : String := String.mk letters
  let mapped := DataTypeMapper.map_type group0 source_db target_db
  if pyContainsChar group0 '(' && mapped == group1 then group0.toList else mapped.toList

/-- The left-to-right scan of `re.sub` for the token pattern.  `fuel` only
serves to make the recursion structural; every step consumes at least one
character, so `fuel = length + 1` (as passed by `typeSub`) never runs out. -/
def DataTypeMapper.typeSubAux (source_db target_db : String) :
    Nat → Option Char → List Char → List Char
  | 0, _, cs => cs
  | _ + 1, _, [] => []
  | fuel + 1, prev, c :: cs =>
    if pyIsAsciiLetter c && !(pyIsWordCharOpt prev) then
      let letters := List.takeWhile pyIsAsciiLetter (c :: cs)
      let rest := List.dropWhile pyIsAsciiLetter (c :: cs)
      match rest with
      | '(' :: tail =>
        (match spanCloseParen tail with
         | some (inner, after) =>
           DataTypeMapper.replace_type source_db target_db letters (some inner)
             ++ DataTypeMapper.typeSubAux source_db target_db fuel (some ')') after
         | none =>
           DataTypeMapper.replace_type source_db target_db letters none
             ++ DataTypeMapper.typeSubAux source_db target_db fuel
                  (some (letters.getLastD c)) rest)
      | _ =>
        DataTypeMapper.replace_type source_db target_db letters none
          ++ DataTypeMapper.typeSubAux source_db target_db fuel
               (some (letters.getLastD c)) rest
    else c :: DataTypeMapper.typeSubAux source_db target_db fuel (some c) cs

/-- The full type-rewriting pass (lines 240–254). -/
def DataTypeMapper.typeSub (source_db target_db : String) (s : String) : String :=
  String.mk (DataTypeMapper.typeSubAux source_db target_db (s.toList.length + 1) none s.toList)

/-- `DataTypeMapper._handle_syntax_differences` (lines 261–304).

The module `app/db_adapters/type_mapping.py` imports only `logging` and
`typing` at module level; `re` is imported *locally* inside
`convert_create_table_sql` (line 232) and is therefore not a module-level
name.  `_handle_syntax_differences` nevertheless refers to `re.sub` (lines
280–284, 289, 301–302), so the first `re.sub` call on each branch that
reaches one raises `NameError: name 're' is not defined`.  The
`source_db == 'sqlite' → target_db == 'mysql'` branch uses only
`str.replace` (line 295) and succeeds. -/
def DataTypeMapper.handle_syntax_differences (sql source_db target_db : String) :
    Except PyExc String :=
  if source_db = "mysql" then
    if target_db = "sqlite" then
      -- line 280: `re.sub(r'\s*ENGINE\s*=\s*\w+', ...)` — `re` is unresolved
      .error (.nameError "name re is not defined")
    else if target_db = "postgresql" then
      -- line 289: `re.sub(r'\s*AUTO_INCREMENT\s*=\s*\d+', ...)` — same
      .error (.nameError "name re is not defined")
    else .ok sql
  else if source_db = "sqlite" then
    if target_db = "mysql" then .ok (sql.replace "AUTOINCREMENT" "AUTO_INCREMENT")
    else .ok sql
  else if source_db = "postgresql" then
    if target_db = "mysql" then
      -- line 301: `re.sub(r'\bSERIAL\b', ...)` — same
      .error (.nameError "name re is not defined")
    else .ok sql
  else .ok sql

/-- `DataTypeMapper.convert_create_table_sql` (lines 215–259). -/
def DataTypeMapper.convert_create_table_sql (create_sql source_db target_db : String)
    (source_identifier_quote : String := "`") (target_identifier_quote : String := "`") :
    Except PyExc String :=
  let result := if source_identifier_quote ≠ target_identifier_quote then
      create_sql.replace source_identifier_quote target_identifier_quote
    else create_sql
  let result := DataTypeMapper.typeSub source_db target_db result
  DataTypeMapper.handle_syntax_differences result source_db target_db

/-! ## Migration orchestrator (`app/db_migration.py`)

The orchestrator drives two already-connected adapters through duck-typed
calls.  An adapter is modelled as a record of the observable results of the
adapter methods the orchestrator invokes; this matches the adapter contract
(every adapter method catches its own driver exceptions and returns a
boolean / empty sentinel — see the adapter models above).  The single source
of exceptions inside `migrate_table`'s `try` block is the type mapper
(`convert_create_table_sql` can raise `NameError`), which the blanket
`except Exception` at line 135 turns into `False`. -/

/-- The column dictionaries produced by `get_table_columns`; the orchestrator
reads only `col['name']` (`db_migration.py` line 125). -/
structure ColumnInfo where
  name : String
  dtype : String
  deriving DecidableEq

/-- Observable behaviour of one connected adapter, as consumed by
`DatabaseMigration`. -/
structure AdapterOps where
  get_table_list : List String
  get_table_structure : String → String
  drop_table : String → Bool
  create_table : String → Bool
  get_table_data : String → List Row
  get_table_columns : String → List ColumnInfo
  insert_data : String → List String → List Row → Bool

/-- `DatabaseMigration.migrate_table` (lines 73–137).  The steps, in source
order: fetch source DDL (fail on empty); optionally convert it (a raised
exception is caught by the `except` at line 135 and yields `False`); drop the
target table, ignoring failure; create the target table (fail on `False`);
fetch data (empty data is success); fetch columns (fail on empty); insert
(fail on `False`). -/
def DatabaseMigration.migrate_table (source target : AdapterOps)
    (source_db_type target_db_type : String) (table_name : String)
    (drop_target : Bool) (convert_types : Bool) : Bool :=
  let create_sql := source.get_table_structure table_name
  if create_sql = "" then false
  else
    let converted : Except PyExc String :=
      if convert_types then
        DataTypeMapper.convert_create_table_sql create_sql source_db_type target_db_type
      else .ok create_sql
    match converted with
    | .error _ => false
    | .ok create_sql =>
      -- line 104-106: drop failure is only a logged warning
      let _dropped := if drop_target then target.drop_table table_name else true
      if !(target.create_table create_sql) then false
      else
        let data := source.get_table_data table_name
        if data.isEmpty then true
        else
          let columns_info := source.get_table_columns table_name
          if columns_info.isEmpty then false
          else
            let columns := columns_info.map (fun col => col.name)
            if !(target.insert_data table_name columns data) then false
            else true

/-- The table filter of `migrate_database` (lines 166–177): drop excluded
tables, and — when `include_tables` is non-empty — tables outside the include
list, preserving the source order. -/
def DatabaseMigration.filterTables (source_tables exclude_tables include_tables : List String) :
    List String :=
  match source_tables with
  | [] => []
  | table :: rest =>
    if exclude_tables.contains table then
      DatabaseMigration.filterTables rest exclude_tables include_tables
    else if !include_tables.isEmpty && !(include_tables.contains table) then
      DatabaseMigration.filterTables rest exclude_tables include_tables
    else
      table :: DatabaseMigration.filterTables rest exclude_tables include_tables

/-- The migration loop of `migrate_database` (lines 182–196): for the `i`-th
table report progress, then attempt `migrate_table` and count successes.
Returns `(success_count, progress reports)`.  Python computes the percentage
as `int((i / total_tables) * 100)` over floats; the claims proved below do
not depend on the reported number, only on which reports are made. -/
def DatabaseMigration.migrateLoop (outcome : String → Bool) (total_tables : Nat) :
    Nat → List String → Nat × List (Nat × String)
  | _, [] => (0, [])
  | i, table :: rest =>
    let report := (i * 100 / total_tables, "正在迁移表: " ++ table)
    let next := DatabaseMigration.migrateLoop outcome total_tables (i + 1) rest
    ((if outcome table then 1 else 0) + next.1, report :: next.2)

/-- The progress reports of the loop, on their own: they depend only on the
working set, never on any table's outcome. -/
def DatabaseMigration.progressReports (total_tables : Nat) :
    Nat → List String → List (Nat × String)
  | _, [] => []
  | i, table :: rest =>
    (i * 100 / total_tables, "正在迁移表: " ++ table)
      :: DatabaseMigration.progressReports total_tables (i + 1) rest

/-- `DatabaseMigration.migrate_database` (lines 139–204).  Returns the boolean
result together with the sequence of `progress_callback` invocations — the
complete caller-visible output of a run.  An empty `get_table_list` aborts
with `False` (line 162) before any progress is reported. -/
def DatabaseMigration.migrate_database (source target : AdapterOps)
    (source_db_type target_db_type : String)
    (exclude_tables include_tables : List String)
    (drop_target_tables convert_types : Bool) : Bool × List (Nat × String) :=
  let source_tables := source.get_table_list
  if source_tables.isEmpty then (false, [])
  else
    let tables_to_migrate :=
      DatabaseMigration.filterTables source_tables exclude_tables include_tables
    let total_tables := tables_to_migrate.length
    let run := DatabaseMigration.migrateLoop
      (fun table => DatabaseMigration.migrate_table source target
        source_db_type target_db_type table drop_target_tables convert_types)
      total_tables 0 tables_to_migrate
    (run.1 == total_tables, run.2 ++ [(100, "迁移完成")])

/-! ## SQL-script splitting (`_execute_sql_script`, lines 326–358) -/

/-- Python `str.splitlines()` for the line terminators `\n`, `\r\n` and `\r`
(no trailing empty line for a trailing terminator). -/
def pySplitlinesAux : List Char → List Char → List (List Char)
  | acc, [] => if acc.isEmpty then [] else [acc.reverse]
  | acc, '\r' :: '\n' :: rest => acc.reverse :: pySplitlinesAux [] rest
  | acc, '\n' :: rest => acc.reverse :: pySplitlinesAux [] rest
  | acc, '\r' :: rest => acc.reverse :: pySplitlinesAux [] rest
  | acc, c :: rest => pySplitlinesAux (c :: acc) rest

/-- Python `str.splitlines()`. -/
def pySplitlines (s : String) : List String :=
  (pySplitlinesAux [] s.toList).map String.mk

/-- The scanner state of the statement splitter: statements emitted so far,
the accumulation buffer, and the `in_delimiter` flag. -/
structure SplitState where
  sql_statements : List String
  current_statement : String
  in_delimiter : Bool
  deriving DecidableEq

/-- One iteration of the line loop (lines 336–352): skip comment lines,
enter (and never leave) delimiter mode on a `DELIMITER` line, otherwise
accumulate the line and emit the accumulated statement when the line's
stripped form ends with `;` outside delimiter mode. -/
def DatabaseMigration.processLine (st : SplitState) (line : String) : SplitState :=
  let stripped_line := pyStrip line
  if pyStartsWith stripped_line "--" || pyStartsWith stripped_line "#" then st
  else if pyStartsWith (pyUpper stripped_line) "DELIMITER" then
    { st with in_delimiter := true }
  else
    let current := st.current_statement ++ line ++ " "
    if pyEndsWith stripped_line ";" && !st.in_delimiter then
      { st with sql_statements := st.sql_statements ++ [pyStrip current],
                current_statement := "" }
    else { st with current_statement := current }

/-- The statement-splitting phase of `_execute_sql_script` (lines 331–356),
including the final flush of a non-blank leftover accumulation. -/
def DatabaseMigration.split_sql_statements (sql_content : String) : List String :=
  let st := (pySplitlines sql_content).foldl DatabaseMigration.processLine
    ⟨[], "", false⟩
  if pyStrip st.current_statement ≠ "" then
    st.sql_statements ++ [pyStrip st.current_statement]
  else st.sql_statements

/-! ## Concrete adapter behaviours used in witnesses and counterexamples -/

/-- A connected source adapter exposing two empty tables `A`, `B` whose DDLs
are `ddlA`, `ddlB`. -/
def demoSource : AdapterOps :=
  { get_table_list := ["A", "B"]
    get_table_structure := fun t => "ddl" ++ t
    drop_table := fun _ => true
    create_table := fun _ => true
    get_table_data := fun _ => []
    get_table_columns := fun _ => []
    insert_data := fun _ _ _ => true }

/-- A target adapter whose `create_table` fails exactly on table `A`'s DDL. -/
def demoTargetFailA : AdapterOps :=
  { demoSource with create_table := fun s => s != "ddlA" }

/-- A target adapter whose `create_table` fails exactly on table `B`'s DDL. -/
def demoTargetFailB : AdapterOps :=
  { demoSource with create_table := fun s => s != "ddlB" }

/-- The sample script of the spec's splitting scenario: three
semicolon-terminated statements and two comment lines. -/
def demoScript : String :=
  "CREATE TABLE a (x INTEGER);\n-- comment one\nINSERT INTO a VALUES (1);\n# comment two\nDROP TABLE a;\n"

/-- The no-length set exactly as the spec enumerates it (\"TEXT, BLOB/BYTEA,
DATE, TIME, TIMESTAMP, BOOLEAN, JSON/JSONB\"), written down only to compare
the spec's wording with the source's `no_length_types`, which additionally
contains `DATETIME`. -/
def claimedNoLengthTypes : List String :=
  ["TEXT", "BLOB", "BYTEA", "DATE", "TIME", "TIMESTAMP", "BOOLEAN", "JSON", "JSONB"]

/-! ## Lemmas about the orchestration loop -/

/-- The success count never exceeds the number of tables iterated. -/
theorem DatabaseMigration.migrateLoop_fst_le (o : String → Bool) (total i : Nat)
    (ts : List String) : (DatabaseMigration.migrateLoop o total i ts).1 ≤ ts.length := by
  induction ts generalizing i with
  | nil => simp [DatabaseMigration.migrateLoop]
  | cons t rest ih =>
    have := ih (i + 1)
    simp only [DatabaseMigration.migrateLoop, List.length_cons]
    split <;> omega

/-- The success count equals the number of tables iterated exactly when every
table's outcome is a success. -/
theorem DatabaseMigration.migrateLoop_fst_eq_length_iff (o : String → Bool) (total i : Nat)
    (ts : List String) :
    (DatabaseMigration.migrateLoop o total i ts).1 = ts.length ↔ ∀ t ∈ ts, o t = true := by
  induction ts generalizing i with
  | nil => simp [DatabaseMigration.migrateLoop]
  | cons t rest ih =>
    have hle := DatabaseMigration.migrateLoop_fst_le o total (i + 1) rest
    simp only [DatabaseMigration.migrateLoop, List.length_cons, List.mem_cons]
    cases ht : o t with
    | true =>
      simp only [ht, if_true]
      constructor
      · intro h a ha
        rcases ha with rfl | ha
        · exact ht
        · exact ((ih (i + 1)).mp (by omega)) a ha
      · intro h
        have : (DatabaseMigration.migrateLoop o total (i + 1) rest).1 = rest.length :=
          (ih (i + 1)).mpr (fun a ha => h a (Or.inr ha))
        omega
    | false =>
      simp only [ht, Bool.false_eq_true, if_false]
      constructor
      · intro h
        exact absurd h (by omega)
      · intro h
        have := h t (Or.inl rfl)
        simp [ht] at this

/-- The progress reports of the loop do not depend on the outcome function. -/
theorem DatabaseMigration.migrateLoop_snd (o : String → Bool) (total i : Nat)
    (ts : List String) :
    (DatabaseMigration.migrateLoop o total i ts).2
      = DatabaseMigration.progressReports total i ts := by
  induction ts generalizing i with
  | nil => rfl
  | cons t rest ih =>
    simp [DatabaseMigration.migrateLoop, DatabaseMigration.progressReports, ih]

/-- The working-set computation is the evident `List.filter`. -/
theorem DatabaseMigration.filterTables_eq_filter (src exc inc : List String) :
    DatabaseMigration.filterTables src exc inc
      = src.filter (fun t => !(exc.contains t) && (inc.isEmpty || inc.contains t)) := by
  induction src with
  | nil => rfl
  | cons t rest ih =>
    by_cases h1 : t ∈ exc
    · simp [DatabaseMigration.filterTables, List.filter_cons, h1, ih]
    · by_cases h2 : inc = []
      · subst h2
        simp [DatabaseMigration.filterTables, List.filter_cons, h1, ih]
      · by_cases h3 : t ∈ inc
        · simp [DatabaseMigration.filterTables, List.filter_cons, h1, h2, h3, ih]
        · simp [DatabaseMigration.filterTables, List.filter_cons, h1, h2, h3, ih]

/-! ## Claim theorems -/

/-- C7: for every type token `t` and every engine `e`,
`mapType(t, e, e) = t` — with equal source and target engines the raw token
is returned unchanged (`map_type`, line 189). -/
theorem C7_map_type_identity (t engine : String) :
    DataTypeMapper.map_type t engine engine = t := by
  simp [DataTypeMapper.map_type]

/-- C8: whenever the base type of a token is absent from the mapping table of
the engine pair — including pairs that have no mapping table at all, for which
`mappingFor` yields the empty table — `map_type` returns the original token
unchanged (and, being a total function, cannot raise). -/
theorem C8_unmapped_type_passthrough (t src dst : String)
    (h : (DataTypeMapper.mappingFor src dst).lookup (DataTypeMapper.baseTypeOf t) = none) :
    DataTypeMapper.map_type t src dst = t := by
  by_cases hsd : src = dst
  · simp [DataTypeMapper.map_type, hsd]
  · simp [DataTypeMapper.map_type, hsd, h]

/-- C8 witness: `GEOMETRY(5)` is unmapped for the (mysql, sqlite) pair, and
`INT` for the (mysql, oracle) pair, which has no mapping table; both pass
through unchanged. -/
theorem C8_unmapped_type_passthrough_witness :
    ((DataTypeMapper.mappingFor "mysql" "sqlite").lookup
        (DataTypeMapper.baseTypeOf "GEOMETRY(5)") = none
      ∧ DataTypeMapper.map_type "GEOMETRY(5)" "mysql" "sqlite" = "GEOMETRY(5)")
    ∧ ((DataTypeMapper.mappingFor "mysql" "oracle").lookup
        (DataTypeMapper.baseTypeOf "INT") = none
      ∧ DataTypeMapper.map_type "INT" "mysql" "oracle" = "INT") :=
  ⟨⟨by decide, C8_unmapped_type_passthrough "GEOMETRY(5)" "mysql" "sqlite" (by decide)⟩,
   ⟨by decide, C8_unmapped_type_passthrough "INT" "mysql" "oracle" (by decide)⟩⟩

/-- C9 counterexample: `TIMESTAMP(6)` maps from postgresql to mysql onto the
base type `DATETIME`, which is *not* in the no-length set enumerated by the
claim, so the claim demands the suffix be reattached (`DATETIME(6)`); the
code instead drops it, because the source's `no_length_types` list also
contains `DATETIME`. -/
theorem C9_counterexample_datetime :
    (DataTypeMapper.mappingFor "postgresql" "mysql").lookup
        (DataTypeMapper.baseTypeOf "TIMESTAMP(6)") = some "DATETIME"
    ∧ claimedNoLengthTypes.contains "DATETIME" = false
    ∧ pyContainsChar "TIMESTAMP(6)" '(' = true
    ∧ DataTypeMapper.map_type "TIMESTAMP(6)" "postgresql" "mysql" = "DATETIME"
    ∧ DataTypeMapper.map_type "TIMESTAMP(6)" "postgresql" "mysql"
        ≠ "DATETIME" ++ DataTypeMapper.lengthPartOf "TIMESTAMP(6)" := by
  refine ⟨by decide, by decide, by decide, by decide, by decide⟩

/-- C9 (amended): for every sized token that maps across engines, the suffix
is dropped when the mapped base type lies in the source's `no_length_types`
list — which is the spec's set *plus `DATETIME`* — and reattached
otherwise. -/
theorem C9_length_suffix_handling (t src dst target_type : String)
    (hsd : src ≠ dst)
    (hlen : pyContainsChar t '(' = true)
    (hmap : (DataTypeMapper.mappingFor src dst).lookup (DataTypeMapper.baseTypeOf t)
        = some target_type) :
    DataTypeMapper.map_type t src dst =
      if DataTypeMapper.no_length_types.contains target_type then target_type
      else target_type ++ DataTypeMapper.lengthPartOf t := by
  by_cases hc : DataTypeMapper.no_length_types.contains target_type = true
  · simp [DataTypeMapper.map_type, hsd, hmap, hlen, hc]
  · simp [DataTypeMapper.map_type, hsd, hmap, hlen, hc]

/-- C9 witness: `VARCHAR(50)` → sqlite drops the suffix (target `TEXT` is a
no-length type); `INT(11)` → postgresql keeps it (target `INTEGER` is not). -/
theorem C9_length_suffix_handling_witness :
    (DataTypeMapper.map_type "VARCHAR(50)" "mysql" "sqlite"
        = (if DataTypeMapper.no_length_types.contains "TEXT" then "TEXT"
           else "TEXT" ++ DataTypeMapper.lengthPartOf "VARCHAR(50)")
      ∧ DataTypeMapper.map_type "VARCHAR(50)" "mysql" "sqlite" = "TEXT")
    ∧ (DataTypeMapper.map_type "INT(11)" "mysql" "postgresql"
        = (if DataTypeMapper.no_length_types.contains "INTEGER" then "INTEGER"
           else "INTEGER" ++ DataTypeMapper.lengthPartOf "INT(11)")
      ∧ DataTypeMapper.map_type "INT(11)" "mysql" "postgresql" = "INTEGER(11)") :=
  ⟨⟨C9_length_suffix_handling "VARCHAR(50)" "mysql" "sqlite" "TEXT"
      (by decide) (by decide) (by decide), by decide⟩,
   ⟨C9_length_suffix_handling "INT(11)" "mysql" "postgresql" "INTEGER"
      (by decide) (by decide) (by decide), by decide⟩⟩

/-- C3: contrary to the claim, a mysql → sqlite `convertCreateTableSQL` run
does not complete: `_handle_syntax_differences` refers to the module-level
name `re`, which `type_mapping.py` never imports at module level (it is
imported only inside `convert_create_table_sql`), so the clause-stripping
`re.sub` calls raise `NameError` on every input; the mysql → postgresql
branch fails the same way. -/
theorem C3_convert_create_table_raises :
    DataTypeMapper.convert_create_table_sql
        "CREATE TABLE `users` (`id` INT(11) NOT NULL) ENGINE=InnoDB DEFAULT CHARSET=utf8mb4 COLLATE=utf8mb4_bin AUTO_INCREMENT=2;"
        "mysql" "sqlite"
      = .error (.nameError "name re is not defined")
    ∧ DataTypeMapper.convert_create_table_sql
        "CREATE TABLE `users` (`id` INT(11) NOT NULL) ENGINE=InnoDB;"
        "mysql" "postgresql"
      = .error (.nameError "name re is not defined") :=
  ⟨rfl, rfl⟩

/-- C2: while disconnected, the read operations of all three adapters do fail
cleanly (empty result, no exception), but — contrary to the claim — every
mutating operation (`dropTable`, `createTable`, non-empty `insertBatch`,
`execute`) raises: its `except` handler performs
`self.connection.rollback()` on the `None` connection, and that second
`AttributeError` escapes the adapter. -/
theorem C2_disconnected_operations (tbl sql_text : String) (cols : List String)
    (r : Row) (f : String → List Row → String) :
    (SQLiteAdapter.get_table_list none = .ok []
      ∧ SQLiteAdapter.get_table_structure none tbl = .ok ""
      ∧ SQLiteAdapter.get_table_columns none tbl = .ok []
      ∧ SQLiteAdapter.get_table_data none tbl = .ok [])
    ∧ (MySQLAdapter.get_table_list none = .ok []
      ∧ MySQLAdapter.get_table_structure none tbl = .ok ""
      ∧ MySQLAdapter.get_table_columns none tbl = .ok []
      ∧ MySQLAdapter.get_table_data none tbl = .ok [])
    ∧ (PostgreSQLAdapter.get_table_list none = .ok []
      ∧ PostgreSQLAdapter.get_table_structure f none tbl = .ok ""
      ∧ PostgreSQLAdapter.get_table_columns none tbl = .ok []
      ∧ PostgreSQLAdapter.get_table_data none tbl = .ok [])
    ∧ (SQLiteAdapter.drop_table none tbl
        = .error (.attributeError "NoneType object has no attribute rollback")
      ∧ SQLiteAdapter.create_table none sql_text
        = .error (.attributeError "NoneType object has no attribute rollback")
      ∧ SQLiteAdapter.insert_data none tbl cols [r]
        = .error (.attributeError "NoneType object has no attribute rollback")
      ∧ SQLiteAdapter.execute_sql none sql_text
        = .error (.attributeError "NoneType object has no attribute rollback"))
    ∧ (MySQLAdapter.drop_table none tbl
        = .error (.attributeError "NoneType object has no attribute rollback")
      ∧ MySQLAdapter.create_table none sql_text
        = .error (.attributeError "NoneType object has no attribute rollback")
      ∧ MySQLAdapter.insert_data none tbl cols [r]
        = .error (.attributeError "NoneType object has no attribute rollback")
      ∧ MySQLAdapter.execute_sql none sql_text
        = .error (.attributeError "NoneType object has no attribute rollback"))
    ∧ (PostgreSQLAdapter.drop_table none tbl
        = .error (.attributeError "NoneType object has no attribute rollback")
      ∧ PostgreSQLAdapter.create_table none sql_text
        = .error (.attributeError "NoneType object has no attribute rollback")
      ∧ PostgreSQLAdapter.insert_data none tbl cols [r]
        = .error (.attributeError "NoneType object has no attribute rollback")
      ∧ PostgreSQLAdapter.execute_sql none sql_text
        = .error (.attributeError "NoneType object has no attribute rollback")) :=
  ⟨⟨rfl, rfl, rfl, rfl⟩, ⟨rfl, rfl, rfl, rfl⟩, ⟨rfl, rfl, rfl, rfl⟩,
   ⟨rfl, rfl, rfl, rfl⟩, ⟨rfl, rfl, rfl, rfl⟩, ⟨rfl, rfl, rfl, rfl⟩⟩

/-- C10: in all three adapters, `insert_data` with an empty row list returns
`True` before touching the connection — in particular it succeeds even while
disconnected, for every connection state `conn`. -/
theorem C10_empty_batch_always_succeeds (conn : Option PyConn) (tbl : String)
    (cols : List String) :
    SQLiteAdapter.insert_data conn tbl cols [] = .ok true
    ∧ MySQLAdapter.insert_data conn tbl cols [] = .ok true
    ∧ PostgreSQLAdapter.insert_data conn tbl cols [] = .ok true :=
  ⟨rfl, rfl, rfl⟩

/-- C1: for every run of `migrate_database` over a non-empty source table
list, (i) the progress trace contains one report per working-set table in
order — every table is attempted regardless of other tables' failures, since
the trace is `progressReports`, which is independent of the per-table
outcomes — and (ii) the returned boolean is `true` iff `migrate_table`
succeeded on every table of the working set. -/
theorem C1_migrate_database_best_effort (source target : AdapterOps)
    (source_db_type target_db_type : String)
    (exclude_tables include_tables : List String)
    (drop_target_tables convert_types : Bool)
    (hne : source.get_table_list ≠ []) :
    (DatabaseMigration.migrate_database source target source_db_type target_db_type
        exclude_tables include_tables drop_target_tables convert_types).2
      = DatabaseMigration.progressReports
          (DatabaseMigration.filterTables source.get_table_list exclude_tables
            include_tables).length
          0
          (DatabaseMigration.filterTables source.get_table_list exclude_tables include_tables)
        ++ [(100, "迁移完成")]
    ∧ ((DatabaseMigration.migrate_database source target source_db_type target_db_type
          exclude_tables include_tables drop_target_tables convert_types).1 = true
        ↔ ∀ table ∈ DatabaseMigration.filterTables source.get_table_list exclude_tables
              include_tables,
            DatabaseMigration.migrate_table source target source_db_type target_db_type
              table drop_target_tables convert_types = true) := by
  have h0 : source.get_table_list.isEmpty = false := by
    cases h : source.get_table_list with
    | nil => exact absurd h hne
    | cons a l => rfl
  constructor
  · simp only [DatabaseMigration.migrate_database, h0, Bool.false_eq_true, if_false]
    rw [DatabaseMigration.migrateLoop_snd]
  · simp only [DatabaseMigration.migrate_database, h0, Bool.false_eq_true, if_false]
    rw [beq_iff_eq]
    exact DatabaseMigration.migrateLoop_fst_eq_length_iff _ _ _ _

/-- C1 witness: a two-table source with a target failing on table `A`. -/
theorem C1_migrate_database_best_effort_witness :
    demoSource.get_table_list ≠ []
    ∧ ((DatabaseMigration.migrate_database demoSource demoTargetFailA "sqlite" "sqlite"
          [] [] true true).1 = true
        ↔ ∀ table ∈ DatabaseMigration.filterTables demoSource.get_table_list [] [],
            DatabaseMigration.migrate_table demoSource demoTargetFailA "sqlite" "sqlite"
              table true true = true) :=
  ⟨by decide,
   (C1_migrate_database_best_effort demoSource demoTargetFailA "sqlite" "sqlite"
      [] [] true true (by decide)).2⟩

/-- C4: the working set is the source table list minus the excluded tables,
intersected with the include list when that is non-empty, in source
enumeration order (it is a sublist of the source list); and the two concrete
instances of the claim hold. -/
theorem C4_working_set_resolution :
    (∀ src exc inc, DatabaseMigration.filterTables src exc inc
        = src.filter (fun t => !(exc.contains t) && (inc.isEmpty || inc.contains t)))
    ∧ (∀ src exc inc, List.Sublist (DatabaseMigration.filterTables src exc inc) src)
    ∧ (∀ src exc inc t, t ∈ DatabaseMigration.filterTables src exc inc
        ↔ t ∈ src ∧ t ∉ exc ∧ (inc = [] ∨ t ∈ inc))
    ∧ DatabaseMigration.filterTables ["A", "B", "C", "D"] ["B"] ["A", "C"] = ["A", "C"]
    ∧ DatabaseMigration.filterTables ["A", "B", "C", "D"] ["B"] [] = ["A", "C", "D"] := by
  refine ⟨DatabaseMigration.filterTables_eq_filter, ?_, ?_, by decide, by decide⟩
  · intro src exc inc
    rw [DatabaseMigration.filterTables_eq_filter]
    exact List.filter_sublist _
  · intro src exc inc t
    rw [DatabaseMigration.filterTables_eq_filter]
    simp [List.mem_filter, List.isEmpty_iff, and_assoc]

/-- C6 counterexample: two runs in which *different* tables fail produce
identical caller-visible output (same boolean, same progress reports) — so no
per-table error mapping is retrievable from a `migrate_database` run, and the
identity of the failed table is lost to the caller. -/
theorem C6_counterexample_failures_indistinguishable :
    DatabaseMigration.migrate_database demoSource demoTargetFailA "sqlite" "sqlite"
        [] [] true true
      = DatabaseMigration.migrate_database demoSource demoTargetFailB "sqlite" "sqlite"
        [] [] true true
    ∧ (DatabaseMigration.migrate_database demoSource demoTargetFailA "sqlite" "sqlite"
        [] [] true true).1 = false
    ∧ DatabaseMigration.migrate_table demoSource demoTargetFailA "sqlite" "sqlite"
        "A" true true = false
    ∧ DatabaseMigration.migrate_table demoSource demoTargetFailA "sqlite" "sqlite"
        "B" true true = true
    ∧ DatabaseMigration.migrate_table demoSource demoTargetFailB "sqlite" "sqlite"
        "A" true true = true
    ∧ DatabaseMigration.migrate_table demoSource demoTargetFailB "sqlite" "sqlite"
        "B" true true = false := by
  refine ⟨by decide, by decide, by decide, by decide, by decide, by decide⟩

/-- C6 (amended): `migrate_database` reports per-table failures only to the
log; its caller-visible output is the single boolean — `true` iff the source
list is non-empty and every working-set table succeeded — plus progress
reports that are completely independent of the target adapter and hence of
which tables failed. -/
theorem C6_amended_failures_only_logged (source target1 target2 : AdapterOps)
    (s1 t1 s2 t2 : String) (exclude_tables include_tables : List String)
    (d1 c1 d2 c2 : Bool) :
    (DatabaseMigration.migrate_database source target1 s1 t1
        exclude_tables include_tables d1 c1).2
      = (DatabaseMigration.migrate_database source target2 s2 t2
          exclude_tables include_tables d2 c2).2
    ∧ (DatabaseMigration.migrate_database source target1 s1 t1
        exclude_tables include_tables d1 c1).1
      = (!(source.get_table_list.isEmpty)
          && (DatabaseMigration.filterTables source.get_table_list exclude_tables
              include_tables).all
            (fun table => DatabaseMigration.migrate_table source target1 s1 t1
              table d1 c1)) := by
  constructor
  · cases h0 : source.get_table_list.isEmpty
    · simp only [DatabaseMigration.migrate_database, h0, Bool.false_eq_true, if_false]
      rw [DatabaseMigration.migrateLoop_snd, DatabaseMigration.migrateLoop_snd]
    · simp [DatabaseMigration.migrate_database, h0]
  · cases h0 : source.get_table_list.isEmpty
    · simp only [DatabaseMigration.migrate_database, h0, Bool.false_eq_true, if_false,
        Bool.not_false, Bool.true_and]
      rw [Bool.eq_iff_iff, beq_iff_eq, List.all_eq_true]
      exact DatabaseMigration.migrateLoop_fst_eq_length_iff _ _ _ _
    · simp [DatabaseMigration.migrate_database, h0]

/-- C5: the statement splitter of `_execute_sql_script` (i) leaves the state
unchanged on a line whose stripped form starts with `--` or `#`; (ii) once the
`in_delimiter` flag is set it stays set and no statement is ever emitted again
(the mode is never exited); (iii) outside delimiter mode, a non-comment,
non-`DELIMITER` line whose stripped form ends with `;` emits exactly the
accumulated statement and clears the buffer; and (iv) the three-statement /
two-comment sample script parses into exactly those three statements, none
empty. -/
theorem C5_script_splitting :
    (∀ st line, (pyStartsWith (pyStrip line) "--" = true
        ∨ pyStartsWith (pyStrip line) "#" = true) →
      DatabaseMigration.processLine st line = st)
    ∧ (∀ st line, st.in_delimiter = true →
        (DatabaseMigration.processLine st line).in_delimiter = true
        ∧ (DatabaseMigration.processLine st line).sql_statements = st.sql_statements)
    ∧ (∀ st line, st.in_delimiter = false →
        pyStartsWith (pyStrip line) "--" = false →
        pyStartsWith (pyStrip line) "#" = false →
        pyStartsWith (pyUpper (pyStrip line)) "DELIMITER" = false →
        pyEndsWith (pyStrip line) ";" = true →
        DatabaseMigration.processLine st line =
          { sql_statements := st.sql_statements
              ++ [pyStrip (st.current_statement ++ line ++ " ")],
            current_statement := "", in_delimiter := false })
    ∧ DatabaseMigration.split_sql_statements demoScript
        = ["CREATE TABLE a (x INTEGER);", "INSERT INTO a VALUES (1);", "DROP TABLE a;"]
    ∧ (DatabaseMigration.split_sql_statements demoScript).length = 3
    ∧ (∀ s ∈ DatabaseMigration.split_sql_statements demoScript, s ≠ "") := by
  refine ⟨?_, ?_, ?_, by decide, by decide, by decide⟩
  · intro st line h
    unfold DatabaseMigration.processLine
    rcases h with h | h <;> simp [h]
  · intro st line h
    obtain ⟨stmts, cur, ind⟩ := st
    simp only at h
    subst h
    simp only [DatabaseMigration.processLine]
    by_cases h1 : (pyStartsWith (pyStrip line) "--" || pyStartsWith (pyStrip line) "#") = true
    · simp [h1]
    · by_cases h2 : pyStartsWith (pyUpper (pyStrip line)) "DELIMITER" = true
      · simp [h1, h2]
      · simp [h1, h2]
  · intro st line h0 hc1 hc2 hd hsemi
    obtain ⟨stmts, cur, ind⟩ := st
    simp only at h0
    subst h0
    unfold DatabaseMigration.processLine
    simp [hc1, hc2, hd, hsemi]

/-- C5 witness: the line-level clauses instantiated at concrete states and
lines. -/
theorem C5_script_splitting_witness :
    DatabaseMigration.processLine ⟨[], "", false⟩ "-- header" = ⟨[], "", false⟩
    ∧ (DatabaseMigration.processLine ⟨["a;"], "x ", true⟩ "SELECT 1;").in_delimiter = true
    ∧ (DatabaseMigration.processLine ⟨["a;"], "x ", true⟩ "SELECT 1;").sql_statements = ["a;"]
    ∧ DatabaseMigration.processLine ⟨[], "", false⟩ "SELECT 1;" = ⟨["SELECT 1;"], "", false⟩ := by
  refine ⟨C5_script_splitting.1 _ _ (Or.inl (by decide)),
    (C5_script_splitting.2.1 ⟨["a;"], "x ", true⟩ "SELECT 1;" rfl).1,
    (C5_script_splitting.2.1 ⟨["a;"], "x ", true⟩ "SELECT 1;" rfl).2, ?_⟩
  rw [C5_script_splitting.2.2.1 ⟨[], "", false⟩ "SELECT 1;" rfl
    (by decide) (by decide) (by decide) (by decide)]
  decide
